import Mathlib

/-!
Verification of the client-side read-model synchronization layer of the
reprint-ui application against its design specification.

The repository is a React application; the synchronization core consists of
react-query cache keys, the invalidation calls performed in each mutation's
success handler, the API client's request helper, and a handful of pure
rendering decisions (spoiler gating, rating display, histogram percentages).
Each of those is embedded below as a pure Lean definition translated from the
corresponding source location, and the specification's claims are settled as
theorems about these definitions.

Strings of the JavaScript source are modelled as lists of characters.
-/

namespace Reprint

/-- JavaScript strings, modelled as lists of characters. -/
abbrev Str := List Char

/-- One element of a react-query cache key array: either a string, or the
JavaScript value undefined (the optional isbn slot of the book query key). -/
inductive KeyPart where
  | s (v : Str)
  | undef
deriving DecidableEq, Repr

/-- A react-query cache key, e.g. the array with elements book and the work
key used by the book detail query. -/
abbrev QueryKey := List KeyPart

/-- Predicate of the react-query invalidateQueries call: a filter key matches
every cached key of which it is a prefix. A success handler is modelled by
the list of filter keys it passes to invalidateQueries, and it invalidates a
cached key when some filter in that list is a prefix of it. -/
def invalidates (calls : List QueryKey) (k : QueryKey) : Prop :=
  ∃ f ∈ calls, f <+: k

instance (calls : List QueryKey) (k : QueryKey) : Decidable (invalidates calls k) :=
  List.decidableBEx _ calls

/-- Cache key of the book detail query in BookDetailPage: the array
[book, workKey, isbn] where the isbn slot is undefined when absent. -/
def bookDetailQueryKey (workKey : Str) (isbn : Option Str) : QueryKey :=
  [.s ("book".toList), .s workKey, match isbn with | some i => .s i | none => .undef]

/-- Cache key of the library query in LibraryPage: the array
[library, activeTab, sortBy, sortOrder]. -/
def libraryQueryKey (activeTab sortBy sortOrder : Str) : QueryKey :=
  [.s ("library".toList), .s activeTab, .s sortBy, .s sortOrder]

/-- Cache key of the own-reviews query in ReviewsPage: the array
[userReviews]. -/
def userReviewsQueryKey : QueryKey :=
  [.s ("userReviews".toList)]

/-- Invalidation filters issued by the success handler of
addToLibraryMutation in BookDetailPage: the keys [book, workKey] and
[library]. -/
def addToLibraryOnSuccess (workKey : Str) : List QueryKey :=
  [[.s ("book".toList), .s workKey], [.s ("library".toList)]]

/-- Invalidation filters issued by the success handler of
updateLibraryMutation in BookDetailPage: the keys [book, workKey] and
[library]. -/
def updateLibraryOnSuccess (workKey : Str) : List QueryKey :=
  [[.s ("book".toList), .s workKey], [.s ("library".toList)]]

/-- Invalidation filters issued by the success handler of
removeFromLibraryMutation in BookDetailPage: the keys [book, workKey] and
[library]. -/
def removeFromLibraryOnSuccess (workKey : Str) : List QueryKey :=
  [[.s ("book".toList), .s workKey], [.s ("library".toList)]]

/-- Invalidation filters issued by the success handler of
createReviewMutation in BookDetailPage: only the key [book, workKey]. -/
def createReviewOnSuccess (workKey : Str) : List QueryKey :=
  [[.s ("book".toList), .s workKey]]

/-- Invalidation filters issued by the success handler of
updateReviewMutation in BookDetailPage: only the key [book, workKey]. -/
def updateReviewOnSuccess (workKey : Str) : List QueryKey :=
  [[.s ("book".toList), .s workKey]]

/-- Invalidation filters issued by the success handler of
deleteReviewMutation in BookDetailPage: only the key [book, workKey]. -/
def deleteReviewOnSuccess (workKey : Str) : List QueryKey :=
  [[.s ("book".toList), .s workKey]]

/-- Replace the first occurrence of a pattern in a string, as the JavaScript
String.replace method does when called with a string pattern. -/
def replaceFirst (pat repl : Str) : Str → Str
  | [] => if pat.isPrefixOf [] then repl else []
  | c :: cs =>
    if pat.isPrefixOf (c :: cs) then repl ++ (c :: cs).drop pat.length
    else c :: replaceFirst pat repl cs

/-- Remove a single leading slash, as the JavaScript replace with the
caret-slash regular expression does. -/
def stripLeadingSlash : Str → Str
  | '/' :: cs => cs
  | s => s

/-- Key normalization performed in the LibraryPage mutation handlers:
remove the first occurrence of the works path segment, then one leading
slash. -/
def normalizedKey (workKey : Str) : Str :=
  stripLeadingSlash (replaceFirst ("/works/".toList) [] workKey)

/-- Invalidation filters issued by the success handler of updateMutation in
the current LibraryPage: the key [library] and the key [book, normalizedKey]. -/
def libraryPageUpdateOnSuccess (workKey : Str) : List QueryKey :=
  [[.s ("library".toList)], [.s ("book".toList), .s (normalizedKey workKey)]]

/-- Invalidation filters issued by the success handler of removeMutation in
the current LibraryPage: the key [library] and the key [book, normalizedKey]. -/
def libraryPageRemoveOnSuccess (workKey : Str) : List QueryKey :=
  [[.s ("library".toList)], [.s ("book".toList), .s (normalizedKey workKey)]]

/-- Invalidation filters issued by the success handler of updateMutation in
the other LibraryPage variant of the repository: only the key [library]. -/
def libraryPageLegacyUpdateOnSuccess : List QueryKey :=
  [[.s ("library".toList)]]

/-- Invalidation filters issued by the success handler of removeMutation in
the other LibraryPage variant of the repository: only the key [library]. -/
def libraryPageLegacyRemoveOnSuccess : List QueryKey :=
  [[.s ("library".toList)]]

/-- Invalidation filters issued by the success handler of deleteMutation in
ReviewsPage: only the key [userReviews]. -/
def reviewsPageDeleteOnSuccess : List QueryKey :=
  [[.s ("userReviews".toList)]]

/-- State of the session-wide react-query cache: the list of cached entries,
each a query key paired with its cached data. -/
structure CacheState where
  entries : List (QueryKey × Str)
deriving DecidableEq

/-- Effect of queryClient.clear: every cached entry is removed. -/
def queryClientClear (_ : CacheState) : CacheState := ⟨[]⟩

/-- Effect on the cache of the logout function of the AuthProvider variant
that, after awaiting signOut, calls queryClient.clear. -/
def logoutWithClear (c : CacheState) : CacheState := queryClientClear c

/-- Effect on the cache of the logout function of the AuthProvider in
src/context/AuthContext.tsx: it only awaits signOut and performs no cache
operation. -/
def logoutWithoutClear (c : CacheState) : CacheState := c

/-- A review as the render logic sees it: its id, its author's user id, and
its spoiler flag. -/
structure ReviewView where
  id : Str
  userId : Str
  hasSpoilers : Bool
deriving DecidableEq

/-- Content decision of ReviewCard in BookDetailPage: the review text is
rendered when the review has no spoiler flag or has been revealed; otherwise
the spoiler placeholder is rendered. -/
def showContent (hasSpoilers isRevealed : Bool) : Bool :=
  !hasSpoilers || isRevealed

/-- The toggleSpoiler handler of BookDetailPage: membership of the review id
in the client-local revealed set is flipped. -/
def toggleSpoiler (revealed : Finset Str) (reviewId : Str) : Finset Str :=
  if reviewId ∈ revealed then revealed.erase reviewId else insert reviewId revealed

/-- Content visibility of a community review card: BookDetailPage passes
isRevealed as membership of the review id in the revealed set, and isOwn is
false. -/
def communityCardShowsContent (revealed : Finset Str) (r : ReviewView) : Bool :=
  showContent r.hasSpoilers (decide (r.id ∈ revealed))

/-- Content visibility of the viewer's own review card: BookDetailPage
renders it with isRevealed hard-wired to true and isOwn set. -/
def ownCardShowsContent (r : ReviewView) : Bool :=
  showContent r.hasSpoilers true

/-- The community reviews section as rendered by BookDetailPage: the fetched
reviews whose author differs from the viewer, each paired with the content
visibility of its card. -/
def communityCards (viewerId : Option Str) (reviews : List ReviewView)
    (revealed : Finset Str) : List (ReviewView × Bool) :=
  (reviews.filter (fun r => !(decide (some r.userId = viewerId)))).map
    (fun r => (r, communityCardShowsContent revealed r))

/-- A review submission the BookDetailPage form can issue. -/
inductive SubmitAction where
  | create
  | update (id : Str)
deriving DecidableEq

/-- The review submission available in BookDetailPage: the write-review card
is rendered only when the viewer is authenticated and either has no
userReview or is editing; its submit button issues an update of
userReview.id when a userReview exists and editing is on, and a create
otherwise. -/
def reviewFormSubmission (isAuthenticated : Bool) (userReview : Option ReviewView)
    (isEditing : Bool) : Option SubmitAction :=
  if isAuthenticated && (userReview.isNone || isEditing) then
    some (match userReview, isEditing with
      | some r, true => .update r.id
      | _, _ => .create)
  else none

/-- What the RePrint rating box in the BookDetailPage header displays. -/
inductive CommunityRatingDisplay where
  | noReviewsYet
  | average (text : Option Str) (count : ℕ)
deriving DecidableEq

/-- RePrint rating box of the BookDetailPage header: when the review count is
positive it shows the server-supplied averageRating string and the count,
otherwise the no-reviews sentinel. -/
def reprintRatingHeader (averageRating : Option Str) (reviewCount : ℕ) :
    CommunityRatingDisplay :=
  if reviewCount > 0 then .average averageRating reviewCount else .noReviewsYet

/-- The five per-star buckets of a rating breakdown object. -/
structure RatingBreakdown where
  b1 : ℕ
  b2 : ℕ
  b3 : ℕ
  b4 : ℕ
  b5 : ℕ
deriving DecidableEq

/-- Bucket lookup with the source's fallback to zero for a missing bucket. -/
def RatingBreakdown.count (bd : RatingBreakdown) : ℕ → ℕ
  | 1 => bd.b1
  | 2 => bd.b2
  | 3 => bd.b3
  | 4 => bd.b4
  | 5 => bd.b5
  | _ => 0

/-- Percentage shown next to a histogram bucket: the rounding of
count / total times one hundred when the total is positive, and zero
otherwise, in exact rational arithmetic. -/
def starPercentage (count total : ℕ) : ℤ :=
  if 0 < total then round ((count : ℚ) / (total : ℚ) * 100) else 0

/-- Rows of the RePrint histogram as rendered: for stars five down to one,
the star value, the bucket count, and its percentage of the review count. -/
def reprintRows (bd : RatingBreakdown) (reviewCount : ℕ) : List (ℕ × ℕ × ℤ) :=
  [5, 4, 3, 2, 1].map
    (fun stars => (stars, bd.count stars, starPercentage (bd.count stars) reviewCount))

/-- The externally supplied Open Library rating aggregate. -/
structure OpenLibraryRatings where
  average : Option Str
  count : ℕ
  breakdown : RatingBreakdown
deriving DecidableEq

/-- Rows of the Open Library histogram as rendered: for stars five down to
one, the star value, the bucket count, and its percentage of the external
rating count. -/
def openLibraryRows (ol : OpenLibraryRatings) : List (ℕ × ℕ × ℤ) :=
  [5, 4, 3, 2, 1].map
    (fun stars => (stars, ol.breakdown.count stars,
      starPercentage (ol.breakdown.count stars) ol.count))

/-- What the RePrint tab of the ratings breakdown section displays. -/
inductive BreakdownTabDisplay where
  | noReprintReviewsYet
  | histogram (avg : Option Str) (count : ℕ) (rows : List (ℕ × ℕ × ℤ))
deriving DecidableEq

/-- RePrint tab of the ratings breakdown section: the histogram with the
average and the rows when the review count is positive, otherwise the
no-reviews sentinel card. -/
def reprintBreakdownTab (averageRating : Option Str) (reviewCount : ℕ)
    (bd : RatingBreakdown) : BreakdownTabDisplay :=
  if reviewCount > 0 then .histogram averageRating reviewCount (reprintRows bd reviewCount)
  else .noReprintReviewsYet

/-- Disabled flag of the shelf-status Select of a LibraryItemCard in both
LibraryPage variants: disabled exactly when the isUpdating prop, wired to
the update mutation's pending flag, is set. -/
def libraryItemCardStatusSelectDisabled (updatePending : Bool) : Bool :=
  updatePending

/-- Disabled flag of the remove control of a LibraryItemCard: the remove
dialog trigger and its confirming action carry no disabled attribute,
whatever mutations are pending. -/
def libraryItemCardRemoveDisabled (_updatePending _removePending : Bool) : Bool :=
  false

/-- Disabled flag of the shelf-status dropdown items of BookDetailPage (both
the add-to-library menu and the change-status menu): they carry no disabled
attribute, whatever mutations are pending. -/
def bookDetailShelfItemDisabled (_addPending _updatePending _removePending : Bool) : Bool :=
  false

/-- Disabled flag of the remove-from-library confirming action of
BookDetailPage: it carries no disabled attribute, whatever mutations are
pending. -/
def bookDetailRemoveActionDisabled (_addPending _updatePending _removePending : Bool) : Bool :=
  false

/-- The message field of a parsed JSON response body, when present. -/
structure JsonBody where
  message : Option Str
deriving DecidableEq

/-- An HTTP response as the request helper consumes it: its ok flag and the
result of parsing its body as JSON, which fails with a parse error on an
unparsable body. -/
structure HttpResponse where
  ok : Bool
  jsonBody : Except Str JsonBody

/-- Outcome of the request helper: a parsed value returned to the caller, or
a rejection carrying an error message. -/
inductive RequestOutcome where
  | success (data : JsonBody)
  | failure (message : Str)
deriving DecidableEq

/-- The fallback error message of the request helper. -/
def errorFallback : Str := "An error occurred".toList

/-- The JavaScript expression taking data.message with a fallback: the
fallback is used when the field is absent or is the empty string, both being
falsy. -/
def jsMessageOr (m : Option Str) (fallback : Str) : Str :=
  match m with
  | some s => if s = [] then fallback else s
  | none => fallback

/-- The ApiClient request helper: it awaits the JSON parse of the body
(whose failure rejects the call with the parse error), then, when the
response is not ok, throws an error carrying the body's message field or the
fallback, and otherwise returns the parsed data. -/
def request (r : HttpResponse) : RequestOutcome :=
  match r.jsonBody with
  | .error e => .failure e
  | .ok data =>
    if r.ok then .success data
    else .failure (jsMessageOr data.message errorFallback)

/-- Key normalization of getBookDetails in the ApiClient: remove the
seven-character works prefix when present, else a single leading slash. -/
def getBookDetailsKey (workKey : Str) : Str :=
  if ("/works/".toList).isPrefixOf workKey then workKey.drop 7
  else if ("/".toList).isPrefixOf workKey then workKey.drop 1
  else workKey

/-- Request path issued by getBookDetails, without the optional isbn query
parameter. -/
def getBookDetailsPath (workKey : Str) : Str :=
  ("/books/".toList) ++ getBookDetailsKey workKey

/-- Full request target of getBookDetails including the optional isbn query
parameter. -/
def getBookDetailsUrl (workKey : Str) (isbn : Option Str) : Str :=
  match isbn with
  | some i => getBookDetailsPath workKey ++ ("?isbn=".toList) ++ i
  | none => getBookDetailsPath workKey

/-- Helper: two keys with different head elements are never in the prefix
relation. -/
theorem not_prefix_of_head_ne {a b : KeyPart} {l₁ l₂ : List KeyPart}
    (h : a ≠ b) : ¬ (a :: l₁ <+: b :: l₂) := by
  rintro ⟨t, ht⟩
  rw [List.cons_append] at ht
  injection ht with h1 _
  exact h h1

/-- Helper: the filter [book, workKey] is a prefix of the book detail query
key for the same work key. -/
theorem bookFilter_prefix_bookKey (wk : Str) (isbn : Option Str) :
    [KeyPart.s ("book".toList), KeyPart.s wk] <+: bookDetailQueryKey wk isbn :=
  ⟨[match isbn with | some i => .s i | none => .undef], rfl⟩

/-- Helper: the filter [library] is a prefix of every library query key. -/
theorem libraryFilter_prefix_libraryKey (tab sb so : Str) :
    [KeyPart.s ("library".toList)] <+: libraryQueryKey tab sb so :=
  ⟨[.s tab, .s sb, .s so], rfl⟩

/-- Helper: a handler invalidates a key that its first filter matches. -/
theorem invalidates_cons_self (f : QueryKey) (rest : List QueryKey) (k : QueryKey)
    (h : f <+: k) : invalidates (f :: rest) k :=
  ⟨f, List.mem_cons_self f rest, h⟩

/-- Helper: a handler invalidates every key that its tail filters match. -/
theorem invalidates_cons_of (f : QueryKey) (rest : List QueryKey) (k : QueryKey)
    (h : invalidates rest k) : invalidates (f :: rest) k := by
  obtain ⟨g, hg, hp⟩ := h
  exact ⟨g, List.mem_cons_of_mem f hg, hp⟩

/-- Helper: a handler whose only filter is [library] invalidates no book
detail query key. -/
theorem library_filter_not_bookKey (w : Str) (i : Option Str) :
    ¬ invalidates [[KeyPart.s ("library".toList)]] (bookDetailQueryKey w i) := by
  rintro ⟨f, hf, hp⟩
  simp only [List.mem_singleton] at hf
  subst hf
  simp only [bookDetailQueryKey] at hp
  exact not_prefix_of_head_ne (by decide) hp

/-- Helper: a handler whose only filter is [book, workKey] invalidates no
userReviews query key. -/
theorem book_filter_not_userReviewsKey (wk : Str) :
    ¬ invalidates [[KeyPart.s ("book".toList), KeyPart.s wk]] userReviewsQueryKey := by
  rintro ⟨f, hf, hp⟩
  simp only [List.mem_singleton] at hf
  subst hf
  simp only [userReviewsQueryKey] at hp
  exact not_prefix_of_head_ne (by decide) hp

/-- Helper: a handler whose only filter is [book, workKey] invalidates no
library query key. -/
theorem book_filter_not_libraryKey (wk tab sb so : Str) :
    ¬ invalidates [[KeyPart.s ("book".toList), KeyPart.s wk]] (libraryQueryKey tab sb so) := by
  rintro ⟨f, hf, hp⟩
  simp only [List.mem_singleton] at hf
  subst hf
  simp only [libraryQueryKey] at hp
  exact not_prefix_of_head_ne (by decide) hp

/-- Helper: a handler whose only filter is [userReviews] invalidates no book
detail query key. -/
theorem userReviews_filter_not_bookKey (w : Str) (i : Option Str) :
    ¬ invalidates [[KeyPart.s ("userReviews".toList)]] (bookDetailQueryKey w i) := by
  rintro ⟨f, hf, hp⟩
  simp only [List.mem_singleton] at hf
  subst hf
  simp only [bookDetailQueryKey] at hp
  exact not_prefix_of_head_ne (by decide) hp

/-- Claim C1, counterexample: the update-shelf-status success handler of the
LibraryPage variant in the repository that invalidates only the library key
family does not invalidate the cached book detail entry for the mutated
item's work key, so a later read of the book detail view can be served a
pre-mutation cached value. The claim, which asserts this invalidation for
every LibraryItem mutation issued by the UI, is therefore false. -/
theorem c1_counterexample :
    ¬ invalidates libraryPageLegacyUpdateOnSuccess
      (bookDetailQueryKey ("works/OL1W".toList) none) := by decide

/-- Claim C1, amended: the three LibraryItem mutations of BookDetailPage
(add, update shelf status, remove) each invalidate both the library key
family and the book detail entry for the page's work key; the update and
remove mutations of the current LibraryPage invalidate the library key
family and the book detail entry keyed by the normalized work key; the
update and remove mutations of the other LibraryPage variant invalidate only
the library key family and no book detail entry. -/
theorem c1_amended (wk tab sb so w : Str) (isbn i : Option Str) :
    invalidates (addToLibraryOnSuccess wk) (bookDetailQueryKey wk isbn)
  ∧ invalidates (addToLibraryOnSuccess wk) (libraryQueryKey tab sb so)
  ∧ invalidates (updateLibraryOnSuccess wk) (bookDetailQueryKey wk isbn)
  ∧ invalidates (updateLibraryOnSuccess wk) (libraryQueryKey tab sb so)
  ∧ invalidates (removeFromLibraryOnSuccess wk) (bookDetailQueryKey wk isbn)
  ∧ invalidates (removeFromLibraryOnSuccess wk) (libraryQueryKey tab sb so)
  ∧ invalidates (libraryPageUpdateOnSuccess wk) (libraryQueryKey tab sb so)
  ∧ invalidates (libraryPageUpdateOnSuccess wk) (bookDetailQueryKey (normalizedKey wk) isbn)
  ∧ invalidates (libraryPageRemoveOnSuccess wk) (libraryQueryKey tab sb so)
  ∧ invalidates (libraryPageRemoveOnSuccess wk) (bookDetailQueryKey (normalizedKey wk) isbn)
  ∧ invalidates libraryPageLegacyUpdateOnSuccess (libraryQueryKey tab sb so)
  ∧ invalidates libraryPageLegacyRemoveOnSuccess (libraryQueryKey tab sb so)
  ∧ ¬ invalidates libraryPageLegacyUpdateOnSuccess (bookDetailQueryKey w i)
  ∧ ¬ invalidates libraryPageLegacyRemoveOnSuccess (bookDetailQueryKey w i) := by
  refine ⟨?_, ?_, ?_, ?_, ?_, ?_, ?_, ?_, ?_, ?_, ?_, ?_, ?_, ?_⟩
  · exact invalidates_cons_self _ _ _ (bookFilter_prefix_bookKey wk isbn)
  · exact invalidates_cons_of _ _ _
      (invalidates_cons_self _ _ _ (libraryFilter_prefix_libraryKey tab sb so))
  · exact invalidates_cons_self _ _ _ (bookFilter_prefix_bookKey wk isbn)
  · exact invalidates_cons_of _ _ _
      (invalidates_cons_self _ _ _ (libraryFilter_prefix_libraryKey tab sb so))
  · exact invalidates_cons_self _ _ _ (bookFilter_prefix_bookKey wk isbn)
  · exact invalidates_cons_of _ _ _
      (invalidates_cons_self _ _ _ (libraryFilter_prefix_libraryKey tab sb so))
  · exact invalidates_cons_self _ _ _ (libraryFilter_prefix_libraryKey tab sb so)
  · exact invalidates_cons_of _ _ _
      (invalidates_cons_self _ _ _ (bookFilter_prefix_bookKey (normalizedKey wk) isbn))
  · exact invalidates_cons_self _ _ _ (libraryFilter_prefix_libraryKey tab sb so)
  · exact invalidates_cons_of _ _ _
      (invalidates_cons_self _ _ _ (bookFilter_prefix_bookKey (normalizedKey wk) isbn))
  · exact invalidates_cons_self _ _ _ (libraryFilter_prefix_libraryKey tab sb so)
  · exact invalidates_cons_self _ _ _ (libraryFilter_prefix_libraryKey tab sb so)
  · exact library_filter_not_bookKey w i
  · exact library_filter_not_bookKey w i

/-- Claim C1, witness: the amended statement instantiated at concrete
inputs. -/
theorem c1_witness :
    invalidates (addToLibraryOnSuccess ("OL1W".toList))
      (bookDetailQueryKey ("OL1W".toList) none)
  ∧ invalidates (addToLibraryOnSuccess ("OL1W".toList))
      (libraryQueryKey ("all".toList) ("createdAt".toList) ("desc".toList))
  ∧ invalidates (updateLibraryOnSuccess ("OL1W".toList))
      (bookDetailQueryKey ("OL1W".toList) none)
  ∧ invalidates (updateLibraryOnSuccess ("OL1W".toList))
      (libraryQueryKey ("all".toList) ("createdAt".toList) ("desc".toList))
  ∧ invalidates (removeFromLibraryOnSuccess ("OL1W".toList))
      (bookDetailQueryKey ("OL1W".toList) none)
  ∧ invalidates (removeFromLibraryOnSuccess ("OL1W".toList))
      (libraryQueryKey ("all".toList) ("createdAt".toList) ("desc".toList))
  ∧ invalidates (libraryPageUpdateOnSuccess ("OL1W".toList))
      (libraryQueryKey ("all".toList) ("createdAt".toList) ("desc".toList))
  ∧ invalidates (libraryPageUpdateOnSuccess ("OL1W".toList))
      (bookDetailQueryKey (normalizedKey ("OL1W".toList)) none)
  ∧ invalidates (libraryPageRemoveOnSuccess ("OL1W".toList))
      (libraryQueryKey ("all".toList) ("createdAt".toList) ("desc".toList))
  ∧ invalidates (libraryPageRemoveOnSuccess ("OL1W".toList))
      (bookDetailQueryKey (normalizedKey ("OL1W".toList)) none)
  ∧ invalidates libraryPageLegacyUpdateOnSuccess
      (libraryQueryKey ("all".toList) ("createdAt".toList) ("desc".toList))
  ∧ invalidates libraryPageLegacyRemoveOnSuccess
      (libraryQueryKey ("all".toList) ("createdAt".toList) ("desc".toList))
  ∧ ¬ invalidates libraryPageLegacyUpdateOnSuccess
      (bookDetailQueryKey ("OL2W".toList) none)
  ∧ ¬ invalidates libraryPageLegacyRemoveOnSuccess
      (bookDetailQueryKey ("OL2W".toList) none) :=
  c1_amended ("OL1W".toList) ("all".toList) ("createdAt".toList) ("desc".toList)
    ("OL2W".toList) none none

/-- Claim C2, counterexample: the success handler of createReviewMutation in
BookDetailPage invalidates only the book detail key; it does not invalidate
the viewer's own-reviews key family, so the claim, which asserts that every
review mutation invalidates both, is false. -/
theorem c2_counterexample :
    ¬ invalidates (createReviewOnSuccess ("OL1W".toList)) userReviewsQueryKey := by
  decide

/-- Claim C2, amended: the create, update and delete review mutations of
BookDetailPage invalidate only the book detail entry for the page's work key
(never the own-reviews key family and never the library family), while the
delete mutation of ReviewsPage invalidates only the own-reviews key family
(never any book detail entry). -/
theorem c2_amended (wk w tab sb so : Str) (isbn i : Option Str) :
    invalidates (createReviewOnSuccess wk) (bookDetailQueryKey wk isbn)
  ∧ invalidates (updateReviewOnSuccess wk) (bookDetailQueryKey wk isbn)
  ∧ invalidates (deleteReviewOnSuccess wk) (bookDetailQueryKey wk isbn)
  ∧ ¬ invalidates (createReviewOnSuccess wk) userReviewsQueryKey
  ∧ ¬ invalidates (updateReviewOnSuccess wk) userReviewsQueryKey
  ∧ ¬ invalidates (deleteReviewOnSuccess wk) userReviewsQueryKey
  ∧ ¬ invalidates (createReviewOnSuccess wk) (libraryQueryKey tab sb so)
  ∧ invalidates reviewsPageDeleteOnSuccess userReviewsQueryKey
  ∧ ¬ invalidates reviewsPageDeleteOnSuccess (bookDetailQueryKey w i) := by
  refine ⟨?_, ?_, ?_, ?_, ?_, ?_, ?_, ?_, ?_⟩
  · exact invalidates_cons_self _ _ _ (bookFilter_prefix_bookKey wk isbn)
  · exact invalidates_cons_self _ _ _ (bookFilter_prefix_bookKey wk isbn)
  · exact invalidates_cons_self _ _ _ (bookFilter_prefix_bookKey wk isbn)
  · exact book_filter_not_userReviewsKey wk
  · exact book_filter_not_userReviewsKey wk
  · exact book_filter_not_userReviewsKey wk
  · exact book_filter_not_libraryKey wk tab sb so
  · exact invalidates_cons_self _ _ _ ⟨[], rfl⟩
  · exact userReviews_filter_not_bookKey w i

/-- Claim C2, witness: the amended statement instantiated at concrete
inputs. -/
theorem c2_witness :
    invalidates (createReviewOnSuccess ("OL1W".toList))
      (bookDetailQueryKey ("OL1W".toList) none)
  ∧ invalidates (updateReviewOnSuccess ("OL1W".toList))
      (bookDetailQueryKey ("OL1W".toList) none)
  ∧ invalidates (deleteReviewOnSuccess ("OL1W".toList))
      (bookDetailQueryKey ("OL1W".toList) none)
  ∧ ¬ invalidates (createReviewOnSuccess ("OL1W".toList)) userReviewsQueryKey
  ∧ ¬ invalidates (updateReviewOnSuccess ("OL1W".toList)) userReviewsQueryKey
  ∧ ¬ invalidates (deleteReviewOnSuccess ("OL1W".toList)) userReviewsQueryKey
  ∧ ¬ invalidates (createReviewOnSuccess ("OL1W".toList))
      (libraryQueryKey ("all".toList) ("createdAt".toList) ("desc".toList))
  ∧ invalidates reviewsPageDeleteOnSuccess userReviewsQueryKey
  ∧ ¬ invalidates reviewsPageDeleteOnSuccess (bookDetailQueryKey ("OL2W".toList) none) :=
  c2_amended ("OL1W".toList) ("OL2W".toList) ("all".toList) ("createdAt".toList)
    ("desc".toList) none none

/-- Claim C3, counterexample: after the logout of the AuthProvider in
src/context/AuthContext.tsx, a cache holding one pre-logout entry still
holds it, so the claim that every logout invocation clears the entire cache
is false. -/
theorem c3_counterexample :
    (logoutWithoutClear ⟨[(userReviewsQueryKey, ("cached".toList))]⟩).entries ≠ [] := by
  decide

/-- Claim C3, amended: the logout of the AuthProvider variant that calls
queryClient.clear removes every cached entry with no key predicate, while
the logout of the AuthProvider in src/context/AuthContext.tsx leaves the
cache exactly as it was. -/
theorem c3_amended (c : CacheState) :
    logoutWithClear c = ⟨[]⟩ ∧ logoutWithoutClear c = c :=
  ⟨rfl, rfl⟩

/-- Claim C4: a rendered review with the spoiler flag set shows its content
to a non-author viewer exactly when its id is in the client-local revealed
set, a toggle flips that membership, the author's own card always shows its
content, and every card in the community list belongs to an author other
than the viewer and uses the revealed-set rule. -/
theorem c4_spoiler_gating (viewerId : Option Str) (revealed : Finset Str)
    (reviews : List ReviewView) (r : ReviewView) (hs : r.hasSpoilers = true) :
    (communityCardShowsContent revealed r = true ↔ r.id ∈ revealed)
  ∧ ownCardShowsContent r = true
  ∧ (r.id ∈ toggleSpoiler revealed r.id ↔ r.id ∉ revealed)
  ∧ ∀ p ∈ communityCards viewerId reviews revealed,
      some p.1.userId ≠ viewerId ∧ p.2 = communityCardShowsContent revealed p.1 := by
  refine ⟨?_, ?_, ?_, ?_⟩
  · simp [communityCardShowsContent, showContent, hs]
  · simp [ownCardShowsContent, showContent]
  · by_cases h : r.id ∈ revealed <;> simp [toggleSpoiler, h]
  · intro p hp
    simp only [communityCards, List.mem_map] at hp
    obtain ⟨q, hq, rfl⟩ := hp
    have hmem := List.of_mem_filter hq
    simp only [Bool.not_eq_eq_eq_not, Bool.not_true, decide_eq_false_iff_not] at hmem
    exact ⟨hmem, rfl⟩

/-- Claim C4, witness: the gating facts instantiated at a concrete spoiler
review, viewer and revealed set. -/
theorem c4_witness :
    (⟨("r1".toList), ("u1".toList), true⟩ : ReviewView).hasSpoilers = true
  ∧ ((communityCardShowsContent ∅ ⟨("r1".toList), ("u1".toList), true⟩ = true
        ↔ ("r1".toList) ∈ (∅ : Finset Str))
    ∧ ownCardShowsContent ⟨("r1".toList), ("u1".toList), true⟩ = true
    ∧ (("r1".toList) ∈ toggleSpoiler ∅ ("r1".toList)
        ↔ ("r1".toList) ∉ (∅ : Finset Str))
    ∧ ∀ p ∈ communityCards (some ("u2".toList))
          [⟨("r1".toList), ("u1".toList), true⟩] ∅,
        some p.1.userId ≠ some ("u2".toList)
          ∧ p.2 = communityCardShowsContent ∅ p.1) :=
  ⟨rfl, c4_spoiler_gating (some ("u2".toList)) ∅
    [⟨("r1".toList), ("u1".toList), true⟩] ⟨("r1".toList), ("u1".toList), true⟩ rfl⟩

/-- Claim C5: whenever the fetched book detail data carries a userReview,
the submission the review form can issue is never a create; it is either
nothing or an update addressed by that review's id. -/
theorem c5_no_duplicate_review (isAuthenticated : Bool) (r : ReviewView)
    (isEditing : Bool) :
    reviewFormSubmission isAuthenticated (some r) isEditing ≠ some SubmitAction.create
  ∧ (reviewFormSubmission isAuthenticated (some r) isEditing = none
      ∨ reviewFormSubmission isAuthenticated (some r) isEditing
          = some (SubmitAction.update r.id)) := by
  cases isAuthenticated <;> cases isEditing <;> simp [reviewFormSubmission]

/-- Claim C5, witness: the statement instantiated at a concrete pending
review in the editing state. -/
theorem c5_witness :
    reviewFormSubmission true (some ⟨("r1".toList), ("u1".toList), false⟩) true
      ≠ some SubmitAction.create
  ∧ (reviewFormSubmission true (some ⟨("r1".toList), ("u1".toList), false⟩) true = none
      ∨ reviewFormSubmission true (some ⟨("r1".toList), ("u1".toList), false⟩) true
          = some (SubmitAction.update ("r1".toList))) :=
  c5_no_duplicate_review true ⟨("r1".toList), ("u1".toList), false⟩ true

/-- Claim C6: with a review count of zero the RePrint rating box shows the
no-reviews sentinel and the RePrint breakdown tab shows the no-reviews card,
so no numeric community average is displayed; with a positive count the box
shows the average. -/
theorem c6_zero_reviews_sentinel (averageRating : Option Str) (bd : RatingBreakdown) :
    reprintRatingHeader averageRating 0 = CommunityRatingDisplay.noReviewsYet
  ∧ reprintBreakdownTab averageRating 0 bd = BreakdownTabDisplay.noReprintReviewsYet
  ∧ ∀ n : ℕ, reprintRatingHeader averageRating (n + 1)
      = CommunityRatingDisplay.average averageRating (n + 1) := by
  refine ⟨rfl, rfl, fun n => ?_⟩
  simp [reprintRatingHeader]

/-- Claim C7: every histogram row for a star bucket carries the percentage
equal to the rounding of count over total times one hundred in exact
rational arithmetic when the total is positive, equal to the closed-form
natural division of two hundred times count plus total by twice the total,
and equal to zero when the total is zero; this is the same formula for the
community rows and for the external rows. -/
theorem c7_histogram_percentages (bd : RatingBreakdown) (ol : OpenLibraryRatings)
    (s : ℕ) (hs : s ∈ [1, 2, 3, 4, 5]) (total : ℕ) :
    ((s, bd.count s, starPercentage (bd.count s) total) ∈ reprintRows bd total)
  ∧ ((s, ol.breakdown.count s, starPercentage (ol.breakdown.count s) ol.count)
      ∈ openLibraryRows ol)
  ∧ (0 < total → starPercentage (bd.count s) total
      = round ((bd.count s : ℚ) / (total : ℚ) * 100))
  ∧ (0 < total → starPercentage (bd.count s) total
      = (((200 * bd.count s + total) / (2 * total) : ℕ) : ℤ))
  ∧ (total = 0 → starPercentage (bd.count s) total = 0) := by
  refine ⟨?_, ?_, ?_, ?_, ?_⟩
  · fin_cases hs <;> simp [reprintRows]
  · fin_cases hs <;> simp [openLibraryRows]
  · intro ht
    simp [starPercentage, ht]
  · intro ht
    have htq : (total : ℚ) ≠ 0 := Nat.cast_ne_zero.mpr ht.ne'
    have key : (bd.count s : ℚ) / (total : ℚ) * 100 + 1 / 2
        = ((200 * bd.count s + total : ℕ) : ℚ) / ((2 * total : ℕ) : ℚ) := by
      push_cast
      field_simp
      ring
    have hnonneg : (0 : ℚ) ≤ ((200 * bd.count s + total : ℕ) : ℚ) / ((2 * total : ℕ) : ℚ) := by
      positivity
    calc starPercentage (bd.count s) total
        = round ((bd.count s : ℚ) / (total : ℚ) * 100) := by simp [starPercentage, ht]
      _ = ⌊(bd.count s : ℚ) / (total : ℚ) * 100 + 1 / 2⌋ := round_eq _
      _ = ⌊((200 * bd.count s + total : ℕ) : ℚ) / ((2 * total : ℕ) : ℚ)⌋ := by rw [key]
      _ = (((200 * bd.count s + total) / (2 * total) : ℕ) : ℤ) := by
          rw [← Int.natCast_floor_eq_floor hnonneg, Nat.floor_div_nat, Nat.floor_natCast]
  · intro ht
    subst ht
    simp [starPercentage]

/-- Claim C7, witness: the percentage facts instantiated at the five-star
bucket of a concrete breakdown with eight reviews. -/
theorem c7_witness :
    (5 : ℕ) ∈ [1, 2, 3, 4, 5]
  ∧ (((5, RatingBreakdown.count ⟨1, 0, 2, 0, 5⟩ 5,
        starPercentage (RatingBreakdown.count ⟨1, 0, 2, 0, 5⟩ 5) 8)
        ∈ reprintRows ⟨1, 0, 2, 0, 5⟩ 8)
    ∧ ((5, RatingBreakdown.count ⟨1, 0, 2, 0, 5⟩ 5,
        starPercentage (RatingBreakdown.count ⟨1, 0, 2, 0, 5⟩ 5) 8)
        ∈ openLibraryRows ⟨none, 8, ⟨1, 0, 2, 0, 5⟩⟩)
    ∧ (0 < 8 → starPercentage (RatingBreakdown.count ⟨1, 0, 2, 0, 5⟩ 5) 8
        = round ((RatingBreakdown.count ⟨1, 0, 2, 0, 5⟩ 5 : ℚ) / (8 : ℚ) * 100))
    ∧ (0 < 8 → starPercentage (RatingBreakdown.count ⟨1, 0, 2, 0, 5⟩ 5) 8
        = (((200 * RatingBreakdown.count ⟨1, 0, 2, 0, 5⟩ 5 + 8) / (2 * 8) : ℕ) : ℤ))
    ∧ ((8 : ℕ) = 0 → starPercentage (RatingBreakdown.count ⟨1, 0, 2, 0, 5⟩ 5) 8 = 0)) :=
  ⟨by decide, c7_histogram_percentages ⟨1, 0, 2, 0, 5⟩ ⟨none, 8, ⟨1, 0, 2, 0, 5⟩⟩ 5
    (by decide) 8⟩

/-- Claim C8, counterexample: while a shelf update mutation is pending, the
remove control of the same library item is not disabled, and the
shelf-status dropdown items of BookDetailPage are not disabled either, so a
second shelf mutation for the same item can be issued while one is in
flight; the claim is therefore false. -/
theorem c8_counterexample :
    libraryItemCardRemoveDisabled true false = false
  ∧ bookDetailShelfItemDisabled false true false = false :=
  ⟨rfl, rfl⟩

/-- Claim C8, amended: while a shelf update mutation is pending only the
shelf-status Select of the LibraryPage cards is disabled; the LibraryPage
remove control and the BookDetailPage shelf controls (status dropdown items
and remove confirmation) are never disabled, whatever shelf mutations are
pending. -/
theorem c8_amended (addPending updatePending removePending : Bool) :
    libraryItemCardStatusSelectDisabled updatePending = updatePending
  ∧ libraryItemCardRemoveDisabled updatePending removePending = false
  ∧ bookDetailShelfItemDisabled addPending updatePending removePending = false
  ∧ bookDetailRemoveActionDisabled addPending updatePending removePending = false :=
  ⟨rfl, rfl, rfl, rfl⟩

/-- Claim C9, counterexample: an ok response whose body fails to parse as
JSON makes the request helper reject with the parse error instead of
returning a parsed value, so the claimed equivalence between an ok status
and a returned value is false. -/
theorem c9_counterexample :
    (HttpResponse.mk true (.error ("Unexpected end of JSON input".toList))).ok = true
  ∧ request (HttpResponse.mk true (.error ("Unexpected end of JSON input".toList)))
      = RequestOutcome.failure ("Unexpected end of JSON input".toList) :=
  ⟨rfl, rfl⟩

/-- Claim C9, amended: for every response whose body parses as JSON the
request helper returns the parsed value exactly when the status is ok, and
on a non-ok status rejects with the body's message field (falling back to
the fixed message when that field is absent or empty); when the body fails
to parse it rejects with the parse error; and a returned value always comes
from an ok response with that parsed body. -/
theorem c9_amended (r : HttpResponse) :
    (∀ data, r.jsonBody = Except.ok data →
        (r.ok = true → request r = RequestOutcome.success data)
      ∧ (r.ok = false → request r
          = RequestOutcome.failure (jsMessageOr data.message errorFallback)))
  ∧ (∀ e, r.jsonBody = Except.error e → request r = RequestOutcome.failure e)
  ∧ (∀ d, request r = RequestOutcome.success d →
      r.ok = true ∧ r.jsonBody = Except.ok d) := by
  obtain ⟨ok, body⟩ := r
  cases body <;> cases ok <;> simp [request]

/-- Claim C9, witness: a concrete non-ok response with a parsed body whose
message field is present. -/
theorem c9_witness :
    (HttpResponse.mk false (.ok ⟨some ("Nope".toList)⟩)).jsonBody
      = Except.ok ⟨some ("Nope".toList)⟩
  ∧ request (HttpResponse.mk false (.ok ⟨some ("Nope".toList)⟩))
      = RequestOutcome.failure ("Nope".toList) := by
  refine ⟨rfl, ?_⟩
  have h := ((c9_amended (HttpResponse.mk false
    (.ok ⟨some ("Nope".toList)⟩))).1 ⟨some ("Nope".toList)⟩ rfl).2 rfl
  rw [h]
  decide

/-- Claim C10: getBookDetails requests the books path built from the work
key with the seven-character works prefix removed when present, else one
leading slash removed, else unchanged; prefixing a key with the works
segment does not change the request path, and in particular the route-style
key and the bare id for the same work produce the same path. -/
theorem c10_getBookDetails_path (workKey : Str) :
    getBookDetailsPath workKey = ("/books/".toList) ++
      (if ("/works/".toList).isPrefixOf workKey then workKey.drop 7
       else if ("/".toList).isPrefixOf workKey then workKey.drop 1
       else workKey)
  ∧ (∀ k : Str, getBookDetailsPath (("/works/".toList) ++ k) = ("/books/".toList) ++ k)
  ∧ getBookDetailsPath ("/works/OL1W".toList) = getBookDetailsPath ("OL1W".toList) := by
  refine ⟨rfl, fun k => ?_, by decide⟩
  have hpre : (("/works/".toList).isPrefixOf (("/works/".toList) ++ k)) = true := by
    rw [List.isPrefixOf_iff_prefix]
    exact ⟨k, rfl⟩
  simp only [getBookDetailsPath, getBookDetailsKey, hpre, if_true]
  congr 1

end Reprint
